import Mathlib

/-!
Verification of the inference-call client of `app.py` (mh-detector-streamlit).

The Python code is shallowly embedded: parsed JSON values become the `Json`
inductive below, Python dict/list primitives become small total functions,
and code that can raise an uncaught exception returns `Option`/`none`.
Scores are modelled as rationals (`ℚ`); the IEEE-float values occurring in
the claims are exactly representable and only compared, never rounded.
-/

/-- Parsed JSON values, as produced by `r.json()` in `app.py`. Python `None`
is `null`, dicts are association lists in insertion order. -/
inductive Json where
  | null
  | bool (b : Bool)
  | num (q : ℚ)
  | str (s : String)
  | arr (xs : List Json)
  | obj (kvs : List (String × Json))

/-- Python slicing `s[:n]`: the first `n` characters of `s`. -/
def pySlice (s : String) (n : Nat) : String := String.mk (s.data.take n)

/-- Python `s.strip()` on the character list: drop whitespace from both
ends. -/
def stripChars (cs : List Char) : List Char :=
  ((cs.dropWhile Char.isWhitespace).reverse.dropWhile Char.isWhitespace).reverse

/-- Python `text.strip()`. -/
def pyStrip (s : String) : String := String.mk (stripChars s.data)

/-- Python `d.get(k)` / `k in d` on a dict modelled as an association list:
the first binding of `k`, if any. -/
def pyDictGet (kvs : List (String × Json)) (k : String) : Option Json :=
  (kvs.find? (fun kv => kv.1 == k)).map (fun kv => kv.2)

/-- Python truthiness of a parsed-JSON value (`if labels and scores`). -/
def truthy : Json → Bool
  | .null => false
  | .bool b => b
  | .num q => q ≠ 0
  | .str s => s ≠ ""
  | .arr xs => !xs.isEmpty
  | .obj kvs => !kvs.isEmpty

/-- Python `len(...)`: defined on sized values, raises `TypeError`
(modelled as `none`) on numbers, booleans and `None`. -/
def pyLen : Json → Option Nat
  | .str s => some s.length
  | .arr xs => some xs.length
  | .obj kvs => some kvs.length
  | _ => none

/-- Python `float(...)` on a parsed-JSON value. Numbers convert, booleans
convert to 0/1, everything else raises (`none`). Python would additionally
parse numeric strings; no response shape in the claims carries string
scores, so that case is left as a raise. -/
def pyFloat : Json → Option ℚ
  | .num q => some q
  | .bool b => some (if b then 1 else 0)
  | _ => none

/-- Python `str(...)`. Claims only exercise the string case; the textual
representations of the other constructors are stand-ins for Python's repr. -/
def pyStr : Json → String
  | .str s => s
  | .bool true => "True"
  | .bool false => "False"
  | .null => "None"
  | .num q => toString q
  | .arr _ => "<list>"
  | .obj _ => "<dict>"

/-- Succeeds with the underlying rationals iff every element is a number.
Used to model Python's `max` comparisons and `float` on the `scores` list:
a non-number among the scores makes the Python code raise. -/
def allNums : List Json → Option (List ℚ)
  | [] => some []
  | .num q :: rest => (allNums rest).map (fun qs => q :: qs)
  | _ => none

/-- Index returned by `max(range(len(scores)), key=lambda i: scores[i])`:
the first index attaining the maximum (Python's `max` keeps the earlier
element on ties). -/
def argmaxFirst : List ℚ → Nat
  | [] => 0
  | [_] => 0
  | q :: rest@(_ :: _) =>
    if q < rest.getD (argmaxFirst rest) 0 then argmaxFirst rest + 1 else 0

/-- The `labels`/`scores` top-1 selection of `_extract_label_and_score`
(lines 76–78): both values must be lists and the scores numbers, otherwise
Python's indexing/comparison/`float` raises (`none`). -/
def top1 (labels scores : Json) : Option (Json × ℚ) :=
  match labels, scores with
  | .arr ls, .arr ss =>
    match allNums ss with
    | some qs =>
      some (.str (pyStr (ls.getD (argmaxFirst qs) .null)), qs.getD (argmaxFirst qs) 0)
    | none => none
  | _, _ => none

/-- Shallow embedding of `_extract_label_and_score` (app.py lines 55–81).
`none` models an uncaught Python exception: `pred[0]` on an empty list
raises `IndexError`, and `float` / `max` raise on non-numeric scores. -/
def _extract_label_and_score (pred : Json) : Option (Json × ℚ) :=
  match pred with
  | .arr [] => none
  | .arr (first :: _) =>
    match first with
    | .obj kvs =>
      match pyDictGet kvs "label", pyDictGet kvs "score" with
      | some lab, some sc => (pyFloat sc).map (fun q => (lab, q))
      | _, _ => some (.str "UNKNOWN", 0)
    | .arr (d :: _) =>
      match d with
      | .obj kvs =>
        (pyFloat ((pyDictGet kvs "score").getD (.num 0))).map
          (fun q => ((pyDictGet kvs "label").getD (.str "LABEL_0"), q))
      | _ => some (.str "UNKNOWN", 0)
    | _ => some (.str "UNKNOWN", 0)
  | .obj kvs =>
    let labels := (pyDictGet kvs "labels").getD .null
    let scores := (pyDictGet kvs "scores").getD .null
    if truthy labels && truthy scores then
      match pyLen labels with
      | none => none
      | some m =>
        match pyLen scores with
        | none => none
        | some n => if m = n ∧ 0 < m then top1 labels scores else some (.str "UNKNOWN", 0)
    else some (.str "UNKNOWN", 0)
  | _ => some (.str "UNKNOWN", 0)

/-- Outcome of the single `requests.post` in `call_hf_inference`: a timeout
(caught as `requests.exceptions.Timeout`), another transport failure
(caught as `RequestException`), or an HTTP response carrying a status code,
the body text `r.text`, and `r.json()` when the body parses as JSON. -/
inductive Outcome where
  | timeout
  | netError (msg : String)
  | response (status : Nat) (body : String) (jsonBody : Option Json)

/-- Shallow embedding of `call_hf_inference` (app.py lines 84–116), as a
function of the outcome of its one HTTP request. The returned Python dict
is a `Json.obj` in the literal key order of the source; `none` models an
uncaught exception escaping from `_extract_label_and_score`. -/
def call_hf_inference (o : Outcome) : Option Json :=
  match o with
  | .timeout =>
    some (.obj [("ok", .bool false), ("error", .str "Request to Hugging Face timed out.")])
  | .netError e =>
    some (.obj [("ok", .bool false), ("error", .str ("Network error: " ++ e))])
  | .response status body jsonBody =>
    if status = 503 then
      some (.obj [("ok", .bool false),
        ("error", .str "Model is loading on Hugging Face (503). Try again shortly.")])
    else if status ≠ 200 then
      some (.obj [("ok", .bool false),
        ("error", .str ("HF API error " ++ toString status ++ ": " ++ pySlice body 400))])
    else
      match jsonBody with
      | none => some (.obj [("ok", .bool false), ("error", .str "Non-JSON response from HF API.")])
      | some pred =>
        match _extract_label_and_score pred with
        | none => none
        | some (label, score) =>
          some (.obj [("ok", .bool true), ("label", label),
            ("score", .num score), ("raw", pred)])

/-- Observable trace of one call of `call_hf_inference` against a scripted
server: how many requests were issued, the delays slept, and the value
returned (`none` when an exception escapes). -/
structure CallTrace where
  requests : Nat
  sleeps : List ℚ
  result : Option Json

/-- Running `call_hf_inference` against a list of scripted outcomes. The
source body contains exactly one `requests.post` and no `time.sleep`
(`time` is imported but never used in this function), so exactly the first
scripted outcome is consumed and the sleep list is empty. An empty script
means the request itself cannot complete (`⟨0, [], none⟩`). -/
def call_hf_inference_run (outs : List Outcome) : CallTrace :=
  match outs with
  | [] => ⟨0, [], none⟩
  | o :: _ => ⟨1, [], call_hf_inference o⟩

/-- The JSON body `call_hf_inference` posts (app.py line 88):
`payload = {"inputs": text}`. -/
def payload (text : String) : Json := .obj [("inputs", .str text)]

/-- Modelled from the spec: the request body §6 Transport says is sent —
`{ "inputs": <text>, "parameters": {"return_all_scores": true},
"options": {"wait_for_model": true} }` — for comparison with `payload`. -/
def specPayload (text : String) : Json :=
  .obj [("inputs", .str text),
    ("parameters", .obj [("return_all_scores", .bool true)]),
    ("options", .obj [("wait_for_model", .bool true)])]

/-- What the Analyze button handler does with the entered text. -/
inductive HandlerAction where
  | warn
  | callAPI (body : Json)

/-- Shallow embedding of the Analyze button handler, HF-API backend
(app.py lines 185–191): `if not text.strip()` shows a warning, otherwise
`call_hf_inference(text.strip(), ...)` is invoked, which posts
`payload (pyStrip text)`. -/
def analyze_handler (text : String) : HandlerAction :=
  if pyStrip text = "" then .warn else .callAPI (payload (pyStrip text))

/-- Modelled from the spec: the label-prettification operation of §4.1
("map known raw class identifiers … to human-readable names ('Non-issue',
'Potential sign'); unrecognized identifiers pass through unchanged"); it
is absent from src/app.py. Total by construction ("must never throw"). -/
def prettify (label : String) : String :=
  if label = "LABEL_0" then "Non-issue"
  else if label = "LABEL_1" then "Potential sign"
  else label

/-- A raw class identifier `prettify` recognizes. -/
def recognizedLabel (label : String) : Bool :=
  label == "LABEL_0" || label == "LABEL_1"

/-- Dict lookup on a `Json` value: `some` only on objects with the key. -/
def jget (j : Json) (k : String) : Option Json :=
  match j with
  | .obj kvs => pyDictGet kvs k
  | _ => none

/-- Whether a `Json` value is a string. -/
def Json.isStr : Json → Bool
  | .str _ => true
  | _ => false

/-! Helper lemmas. -/

/-- Two strings whose first characters differ are different, even when one
has an arbitrary appended tail. -/
theorem append_ne_of_head_ne (a b : String) (x : String)
    (h : (a.data ++ x.data).head? ≠ b.data.head?) : (a ++ x) ≠ b := by
  intro e
  have h2 := congrArg String.data e
  rw [String.data_append] at h2
  exact h (by rw [h2])

/-- A string with a nonempty prefix is nonempty. -/
theorem append_ne_empty (a x : String) (ha : a.length ≠ 0) : (a ++ x) ≠ "" := by
  intro e
  have h2 := congrArg String.length e
  rw [String.length_append] at h2
  have hb : "".length = 0 := rfl
  omega

/-- One-step unfolding of `argmaxFirst` on a list of length at least two. -/
theorem argmaxFirst_cons_cons (q r : ℚ) (t : List ℚ) :
    argmaxFirst (q :: r :: t) =
      if q < (r :: t).getD (argmaxFirst (r :: t)) 0 then argmaxFirst (r :: t) + 1 else 0 := by
  conv_lhs => rw [argmaxFirst]

theorem argmaxFirst_lt_length : ∀ (qs : List ℚ), qs ≠ [] → argmaxFirst qs < qs.length
  | [], h => absurd rfl h
  | [_], _ => by simp [argmaxFirst]
  | q :: r :: t, _ => by
    have ih := argmaxFirst_lt_length (r :: t) (by simp)
    rw [argmaxFirst_cons_cons]
    by_cases hq : q < (r :: t).getD (argmaxFirst (r :: t)) 0
    · rw [if_pos hq]
      simp only [List.length_cons] at ih ⊢
      omega
    · rw [if_neg hq]
      simp

theorem argmaxFirst_is_max : ∀ (qs : List ℚ) (j : Nat), j < qs.length →
    qs.getD j 0 ≤ qs.getD (argmaxFirst qs) 0
  | [], j, h => absurd h (by simp)
  | [q], j, h => by
    have : j = 0 := by simpa using Nat.lt_one_iff.mp (by simpa using h)
    subst this
    simp [argmaxFirst]
  | q :: r :: t, j, h => by
    rw [argmaxFirst_cons_cons]
    by_cases hq : q < (r :: t).getD (argmaxFirst (r :: t)) 0
    · rw [if_pos hq, List.getD_cons_succ]
      cases j with
      | zero => simpa using le_of_lt hq
      | succ j =>
        rw [List.getD_cons_succ]
        exact argmaxFirst_is_max (r :: t) j (by simpa using h)
    · rw [if_neg hq, List.getD_cons_zero]
      cases j with
      | zero => simp
      | succ j =>
        rw [List.getD_cons_succ]
        have h1 := argmaxFirst_is_max (r :: t) j (by simpa using h)
        have h2 := not_lt.mp hq
        exact le_trans h1 h2

theorem argmaxFirst_first_max : ∀ (qs : List ℚ) (j : Nat), j < argmaxFirst qs →
    qs.getD j 0 < qs.getD (argmaxFirst qs) 0
  | [], j, h => by simp [argmaxFirst] at h
  | [_], j, h => by simp [argmaxFirst] at h
  | q :: r :: t, j, h => by
    rw [argmaxFirst_cons_cons] at h ⊢
    by_cases hq : q < (r :: t).getD (argmaxFirst (r :: t)) 0
    · rw [if_pos hq] at h ⊢
      rw [List.getD_cons_succ]
      cases j with
      | zero => simpa using hq
      | succ j =>
        rw [List.getD_cons_succ]
        exact argmaxFirst_first_max (r :: t) j (by omega)
    · rw [if_neg hq] at h
      omega

theorem allNums_map_num : ∀ (qs : List ℚ), allNums (qs.map Json.num) = some qs
  | [] => rfl
  | q :: qs => by simp [allNums, allNums_map_num qs]

/-- Two appended strings whose leading characters differ are different. -/
theorem append_append_ne_of_head_ne (a b x y : String)
    (h : (a.data ++ x.data).head? ≠ (b.data ++ y.data).head?) : (a ++ x) ≠ (b ++ y) := by
  intro e
  have h2 := congrArg String.data e
  rw [String.data_append, String.data_append] at h2
  exact h (by rw [h2])

/-- Indexing a mapped string list under `Json.str`. -/
theorem getD_map_str (names : List String) (i : Nat) (h : i < names.length) :
    (names.map Json.str).getD i .null = .str (names.getD i "") := by
  simp [List.getD_eq_getElem?_getD, List.getElem?_map, List.getElem?_eq_getElem h]

/-! Claim C1. -/

/-- Claim C1 as stated is false of the code: on a well-formed flat
two-class response the extraction keeps only the first `(label, score)`
pair; the second class's pair, although present in the input, is not the
returned pair, so it is silently dropped. -/
theorem C1_counterexample :
    _extract_label_and_score (.arr [.obj [("label", .str "LABEL_0"), ("score", .num (4/5))],
        .obj [("label", .str "LABEL_1"), ("score", .num (1/5))]])
      = some (.str "LABEL_0", 4/5)
    ∧ (Json.str "LABEL_1", (1 : ℚ)/5) ≠ (Json.str "LABEL_0", (4 : ℚ)/5) :=
  ⟨rfl, by simp⟩

/-- Claim C1, amended: normalization does not return all label→score
pairs; for the flat and singly-nested list shapes the extraction returns
exactly the first element's `(label, score)` pair (any remaining class
entries do not appear in the single returned pair). -/
theorem C1_amended :
    (∀ (lab : Json) (q : ℚ) (kvsRest : List (String × Json)) (rest : List Json),
      _extract_label_and_score (.arr (.obj (("label", lab) :: ("score", .num q) :: kvsRest) :: rest))
        = some (lab, q))
    ∧ (∀ (lab : Json) (q : ℚ) (kvsRest : List (String × Json)) (ds rest : List Json),
      _extract_label_and_score
          (.arr (.arr (.obj (("label", lab) :: ("score", .num q) :: kvsRest) :: ds) :: rest))
        = some (lab, q)) :=
  ⟨fun _ _ _ _ => rfl, fun _ _ _ _ _ => rfl⟩

/-- Concrete instance of the amended C1 on a flat single-element list. -/
theorem C1_witness :
    _extract_label_and_score (.arr [.obj [("label", .str "X"), ("score", .num (1/2))]])
      = some (.str "X", 1/2) :=
  C1_amended.1 (.str "X") (1/2) [] []

/-! Claim C2. -/

/-- Claim C2 is false of the code: on the simulated response sequence
`[503, 503, 200]` the call issues exactly one request, sleeps zero times
(not twice), and returns the 503 loading error instead of the success
result of the third attempt. -/
theorem C2_counterexample :
    call_hf_inference_run [.response 503 "loading" none, .response 503 "loading" none,
        .response 200 "ok" (some (.arr [.obj [("label", .str "LABEL_0"),
          ("score", .num (99/100))]]))]
      = ⟨1, [], some (.obj [("ok", .bool false),
          ("error", .str "Model is loading on Hugging Face (503). Try again shortly.")])⟩ :=
  rfl

/-- Claim C2, amended: whenever the first simulated response is a 503,
`call_hf_inference` issues exactly one request, never sleeps, and
surfaces the 503 loading error directly to the caller; there is no retry
loop and no backoff. -/
theorem C2_amended :
    ∀ (b : String) (j : Option Json) (rest : List Outcome),
      call_hf_inference_run (.response 503 b j :: rest)
        = ⟨1, [], some (.obj [("ok", .bool false),
            ("error", .str "Model is loading on Hugging Face (503). Try again shortly.")])⟩ :=
  fun _ _ _ => rfl

/-- Concrete instance of the amended C2. -/
theorem C2_witness :
    call_hf_inference_run [.response 503 "b" none]
      = ⟨1, [], some (.obj [("ok", .bool false),
          ("error", .str "Model is loading on Hugging Face (503). Try again shortly.")])⟩ :=
  C2_amended "b" none []

/-! Claim C3. -/

/-- Claim C3 is false of the code: a 200 response whose JSON body (here
the empty object) matches none of the known structured shapes is not
reported as a malformed-response error: it is silently downgraded to a
success with default label "UNKNOWN" and score 0.0. -/
theorem C3_counterexample :
    call_hf_inference (.response 200 "\x7b\x7d" (some (.obj [])))
      = some (.obj [("ok", .bool true), ("label", .str "UNKNOWN"),
          ("score", .num 0), ("raw", .obj [])]) :=
  rfl

/-- Claim C3, amended: a 200 response whose body is not valid JSON fails
immediately (one request, no sleep, no retry) with the fixed non-JSON
error; a 200 body that parses as a JSON object whose "labels" entry is
absent or falsy — the empty object in particular — is silently
downgraded to `ok = true` with label "UNKNOWN" and score 0.0 rather than
reported as malformed (certain other unrecognized JSON bodies, such as
the empty array, raise instead — see C9). -/
theorem C3_amended :
    (∀ (body : String) (rest : List Outcome),
      call_hf_inference_run (.response 200 body none :: rest)
        = ⟨1, [], some (.obj [("ok", .bool false),
            ("error", .str "Non-JSON response from HF API.")])⟩)
    ∧ (∀ (body : String) (rest : List Outcome) (kvs : List (String × Json)),
      truthy ((pyDictGet kvs "labels").getD .null) = false →
      call_hf_inference_run (.response 200 body (some (.obj kvs)) :: rest)
        = ⟨1, [], some (.obj [("ok", .bool true), ("label", .str "UNKNOWN"),
            ("score", .num 0), ("raw", .obj kvs)])⟩) := by
  refine ⟨fun _ _ => rfl, fun body rest kvs h => ?_⟩
  have hex : _extract_label_and_score (.obj kvs) = some (.str "UNKNOWN", 0) := by
    simp only [_extract_label_and_score]
    rw [h]
    simp
  have h3 : (match _extract_label_and_score (.obj kvs) with
      | none => none
      | some (label, score) => some (Json.obj [("ok", Json.bool true), ("label", label),
          ("score", Json.num score), ("raw", Json.obj kvs)]))
      = call_hf_inference (.response 200 body (some (.obj kvs))) := rfl
  have h2 : call_hf_inference (.response 200 body (some (.obj kvs)))
      = some (.obj [("ok", .bool true), ("label", .str "UNKNOWN"),
          ("score", .num 0), ("raw", .obj kvs)]) := by
    rw [← h3, hex]
  show CallTrace.mk 1 [] (call_hf_inference (.response 200 body (some (.obj kvs)))) = _
  rw [h2]

/-- Concrete instance of the amended C3: a non-JSON 200 body errors, and
the empty JSON object (whose "labels" entry is absent, discharging the
hypothesis) is downgraded to the UNKNOWN success. -/
theorem C3_witness :
    truthy ((pyDictGet [] "labels").getD .null) = false
    ∧ call_hf_inference_run [.response 200 "oops" none]
        = ⟨1, [], some (.obj [("ok", .bool false),
            ("error", .str "Non-JSON response from HF API.")])⟩
    ∧ call_hf_inference_run [.response 200 "\x7b\x7d" (some (.obj []))]
        = ⟨1, [], some (.obj [("ok", .bool true), ("label", .str "UNKNOWN"),
            ("score", .num 0), ("raw", .obj [])])⟩ :=
  ⟨rfl, C3_amended.1 "oops" [], C3_amended.2 "\x7b\x7d" [] [] rfl⟩

/-! Claim C4. -/

/-- Claim C4: on an HTTP 404 response `call_hf_inference` fails
immediately — one request, no sleep, no retry, regardless of any further
scripted outcomes — with the "HF API error 404" message, which differs
from every other error condition the function can produce (the 503
loading error, the timeout error, the non-JSON error, and every network
error). -/
theorem C4_model_not_found :
    ∀ (b : String) (j : Option Json) (rest : List Outcome),
      call_hf_inference_run (.response 404 b j :: rest)
        = ⟨1, [], some (.obj [("ok", .bool false),
            ("error", .str ("HF API error 404: " ++ pySlice b 400))])⟩
      ∧ ("HF API error 404: " ++ pySlice b 400)
          ≠ "Model is loading on Hugging Face (503). Try again shortly."
      ∧ ("HF API error 404: " ++ pySlice b 400) ≠ "Request to Hugging Face timed out."
      ∧ ("HF API error 404: " ++ pySlice b 400) ≠ "Non-JSON response from HF API."
      ∧ ∀ (m : String), ("HF API error 404: " ++ pySlice b 400) ≠ "Network error: " ++ m := by
  intro b j rest
  refine ⟨rfl,
    append_ne_of_head_ne _ _ _ (fun hh => absurd hh (by decide : (some 'H' : Option Char) ≠ some 'M')),
    append_ne_of_head_ne _ _ _ (fun hh => absurd hh (by decide : (some 'H' : Option Char) ≠ some 'R')),
    append_ne_of_head_ne _ _ _ (fun hh => absurd hh (by decide : (some 'H' : Option Char) ≠ some 'N')),
    fun m => append_append_ne_of_head_ne _ _ _ _
      (fun hh => absurd hh (by decide : (some 'H' : Option Char) ≠ some 'N'))⟩

/-- Concrete instance of C4: the trace of a 404 response. -/
theorem C4_witness :
    call_hf_inference_run [.response 404 "nope" none]
      = ⟨1, [], some (.obj [("ok", .bool false),
          ("error", .str ("HF API error 404: " ++ pySlice "nope" 400))])⟩ :=
  (C4_model_not_found "nope" none []).1

/-! Claim C5. -/

/-- Claim C5 is false of the code: the input "hi" is shorter than 3
characters after trimming, yet the Analyze handler issues the network
call with it instead of rejecting it. -/
theorem C5_counterexample :
    analyze_handler "hi" = .callAPI (payload "hi") ∧ (pyStrip "hi").length < 3 :=
  ⟨rfl, by decide⟩

/-- Claim C5, amended: only input that is empty after trimming is
rejected before the network call; every input nonempty after trimming —
including trimmed lengths 1 and 2 — triggers the network request with
the trimmed text. -/
theorem C5_amended (t : String) :
    (pyStrip t = "" → analyze_handler t = .warn)
    ∧ (pyStrip t ≠ "" → analyze_handler t = .callAPI (payload (pyStrip t))) := by
  constructor <;> intro h <;> simp [analyze_handler, h]

/-- Concrete instance of the amended C5 at the one-character input "a". -/
theorem C5_witness :
    pyStrip "a" ≠ "" ∧ analyze_handler "a" = .callAPI (payload (pyStrip "a")) :=
  ⟨by decide, (C5_amended "a").2 (by decide)⟩

/-! Claim C6. -/

/-- Claim C6 is false of the code: the posted body has no "parameters"
and no "options" key (so no `return_all_scores` and no `wait_for_model`
directive), unlike the body the spec describes. -/
theorem C6_counterexample :
    jget (payload "hi") "parameters" = none ∧ jget (payload "hi") "options" = none
    ∧ jget (specPayload "hi") "options" = some (.obj [("wait_for_model", .bool true)])
    ∧ payload "hi" ≠ specPayload "hi" :=
  ⟨rfl, rfl, rfl, by simp [payload, specPayload]⟩

/-- Claim C6, amended: the JSON body sent to the endpoint carries only
the input text under "inputs"; neither a "parameters" nor an "options"
key is present. -/
theorem C6_amended :
    ∀ (t : String), jget (payload t) "inputs" = some (.str t)
      ∧ jget (payload t) "parameters" = none ∧ jget (payload t) "options" = none :=
  fun _ => ⟨rfl, rfl, rfl⟩

/-- Concrete instance of the amended C6. -/
theorem C6_witness :
    jget (payload "abc") "inputs" = some (.str "abc")
      ∧ jget (payload "abc") "parameters" = none ∧ jget (payload "abc") "options" = none :=
  C6_amended "abc"

/-! Claim C7. -/

/-- Claim C7: for a parallel-arrays response (a mapping whose "labels"
and "scores" are sequences of equal, non-zero length), the extraction
selects the index chosen by `argmaxFirst` — an index of maximal score
such that every earlier index has a strictly smaller score, i.e. the
maximum with ties broken by first occurrence — and returns the label and
the score at that index. -/
theorem C7_top1_argmax (kvs : List (String × Json)) (names : List String) (qs : List ℚ)
    (hl : pyDictGet kvs "labels" = some (.arr (names.map Json.str)))
    (hs : pyDictGet kvs "scores" = some (.arr (qs.map Json.num)))
    (hlen : names.length = qs.length) (hpos : 0 < qs.length) :
    _extract_label_and_score (.obj kvs)
        = some (.str (names.getD (argmaxFirst qs) ""), qs.getD (argmaxFirst qs) 0)
      ∧ argmaxFirst qs < qs.length
      ∧ (∀ j, j < qs.length → qs.getD j 0 ≤ qs.getD (argmaxFirst qs) 0)
      ∧ (∀ j, j < argmaxFirst qs → qs.getD j 0 < qs.getD (argmaxFirst qs) 0) := by
  have hqne : qs ≠ [] := by intro e; subst e; simp at hpos
  have hnne : names ≠ [] := by intro e; subst e; simp at hlen; omega
  have hidx : argmaxFirst qs < qs.length := argmaxFirst_lt_length qs hqne
  refine ⟨?_, hidx, fun j hj => argmaxFirst_is_max qs j hj,
    fun j hj => argmaxFirst_first_max qs j hj⟩
  obtain ⟨n, ns, rfl⟩ : ∃ n ns, names = n :: ns := by
    cases names with
    | nil => exact absurd rfl hnne
    | cons a l => exact ⟨a, l, rfl⟩
  obtain ⟨q, qt, rfl⟩ : ∃ q qt, qs = q :: qt := by
    cases qs with
    | nil => exact absurd rfl hqne
    | cons a l => exact ⟨a, l, rfl⟩
  have hlen' : ns.length = qt.length := by simpa using hlen
  simp only [_extract_label_and_score, hl, hs, Option.getD_some, List.map_cons, truthy,
    List.isEmpty_cons, Bool.not_false, Bool.and_self, if_true, pyLen, List.length_cons,
    List.length_map, top1]
  rw [if_pos (show ns.length + 1 = qt.length + 1 ∧ 0 < ns.length + 1 from ⟨by omega, by omega⟩)]
  rw [show (Json.num q :: List.map Json.num qt) = List.map Json.num (q :: qt) from rfl]
  simp only [allNums_map_num]
  rw [show (Json.str n :: List.map Json.str ns) = List.map Json.str (n :: ns) from rfl]
  rw [getD_map_str (n :: ns) (argmaxFirst (q :: qt)) (by simpa [List.length_cons, hlen'] using hidx)]
  rfl

/-- Concrete instance of C7: labels ["A", "B"] and scores [0.3, 0.7]
select index 1, label "B", score 0.7. -/
theorem C7_witness :
    pyDictGet [("labels", Json.arr [.str "A", .str "B"]),
        ("scores", Json.arr [.num (3/10), .num (7/10)])] "labels"
      = some (.arr (["A", "B"].map Json.str))
    ∧ (0:Nat) < ([(3:ℚ)/10, 7/10] : List ℚ).length
    ∧ argmaxFirst [(3:ℚ)/10, 7/10] = 1
    ∧ _extract_label_and_score (.obj [("labels", .arr [.str "A", .str "B"]),
        ("scores", .arr [.num (3/10), .num (7/10)])])
      = some (.str (["A","B"].getD (argmaxFirst [(3:ℚ)/10, 7/10]) ""),
          ([(3:ℚ)/10, 7/10] : List ℚ).getD (argmaxFirst [(3:ℚ)/10, 7/10]) 0) :=
  ⟨rfl, by decide, by norm_num [argmaxFirst],
    (C7_top1_argmax [("labels", Json.arr [.str "A", .str "B"]),
        ("scores", Json.arr [.num (3/10), .num (7/10)])] ["A","B"] [3/10, 7/10]
      rfl rfl rfl (by decide)).1⟩

/-! Claim C8. -/

/-- Claim C8: `prettify` maps the known raw identifiers to their
human-readable names, passes unrecognized identifiers through unchanged
(it is total, hence never throws), and is idempotent on input it does
not recognize. -/
theorem C8_prettify_props (l : String) :
    prettify "LABEL_0" = "Non-issue" ∧ prettify "LABEL_1" = "Potential sign"
    ∧ (recognizedLabel l = false → prettify l = l)
    ∧ (recognizedLabel l = false → prettify (prettify l) = prettify l) := by
  refine ⟨rfl, rfl, ?_, ?_⟩ <;> intro h <;>
    simp only [recognizedLabel, Bool.or_eq_false_iff, beq_eq_false_iff_ne, ne_eq] at h <;>
    simp [prettify, h.1, h.2]

/-- Concrete instance of C8 at the unrecognized label "mystery". -/
theorem C8_witness :
    recognizedLabel "mystery" = false ∧ prettify (prettify "mystery") = prettify "mystery" :=
  ⟨by decide, (C8_prettify_props "mystery").2.2.2 (by decide)⟩

/-! Claim C9. -/

/-- Claim C9 describes the intent (a total, robust extraction with an
"UNKNOWN" fallback, as the docstring's "Robustly extract" and the
fallback branch indicate), but the code violates it: on the empty JSON
list `pred[0]` raises an uncaught `IndexError` (modelled as `none`),
while other unrecognized inputs do reach the fallback. -/
theorem C9_empty_list_raises :
    _extract_label_and_score (.arr []) = none
    ∧ _extract_label_and_score .null = some (.str "UNKNOWN", 0) :=
  ⟨rfl, rfl⟩

/-! Claim C10. -/

/-- Claim C10 as stated is false of the code: a 200 response whose first
element carries a non-string label (here the number 5) is returned with
`ok = true` and a "label" field holding that non-string value, so the
returned dict does not always contain a label **string**. -/
theorem C10_counterexample :
    call_hf_inference (.response 200 "x" (some (.arr [.obj [("label", .num 5), ("score", .num 1)]])))
      = some (.obj [("ok", .bool true), ("label", .num 5), ("score", .num 1),
          ("raw", .arr [.obj [("label", .num 5), ("score", .num 1)]])])
    ∧ Json.isStr (.num 5) = false :=
  ⟨rfl, rfl⟩

/-- Claim C10, amended: every dict returned by `call_hf_inference`
contains "ok"; when "ok" is true the call was a 200 with parsed body
`pred` and the dict also contains a "label" value (not necessarily a
string), a numeric "score", and "raw" equal to `pred` unchanged; when
"ok" is false it contains a non-empty "error" string. -/
theorem C10_amended (o : Outcome) (d : Json) (h : call_hf_inference o = some d) :
    (∃ b pred lab sc, o = .response 200 b (some pred)
        ∧ jget d "ok" = some (.bool true) ∧ jget d "label" = some lab
        ∧ jget d "score" = some (.num sc) ∧ jget d "raw" = some pred)
    ∨ (jget d "ok" = some (.bool false) ∧ ∃ e, jget d "error" = some (.str e) ∧ e ≠ "") := by
  cases o with
  | timeout =>
    right
    have hd := (Option.some.inj h).symm
    subst hd
    exact ⟨rfl, "Request to Hugging Face timed out.", rfl, by decide⟩
  | netError m =>
    right
    have hd := (Option.some.inj h).symm
    subst hd
    exact ⟨rfl, "Network error: " ++ m, rfl, append_ne_empty _ _ (by decide)⟩
  | response status body jb =>
    by_cases h503 : status = 503
    · subst h503
      simp only [call_hf_inference, if_pos rfl] at h
      have hd := (Option.some.inj h).symm
      subst hd
      right
      exact ⟨rfl, "Model is loading on Hugging Face (503). Try again shortly.", rfl, by decide⟩
    · by_cases h200 : status = 200
      · subst h200
        cases jb with
        | none =>
          have h2 : some (Json.obj [("ok", Json.bool false),
              ("error", Json.str "Non-JSON response from HF API.")]) = some d := h
          have hd := (Option.some.inj h2).symm
          subst hd
          right
          exact ⟨rfl, "Non-JSON response from HF API.", rfl, by decide⟩
        | some pred =>
          have h2 : (match _extract_label_and_score pred with
              | none => none
              | some (label, score) => some (Json.obj [("ok", Json.bool true), ("label", label),
                  ("score", Json.num score), ("raw", pred)])) = some d := h
          cases hx : _extract_label_and_score pred with
          | none =>
            rw [hx] at h2
            exact absurd (show (none : Option Json) = some d from h2) (by simp)
          | some p =>
            obtain ⟨lab, sc⟩ := p
            rw [hx] at h2
            have hd := (Option.some.inj (show some (Json.obj [("ok", Json.bool true),
                ("label", lab), ("score", Json.num sc), ("raw", pred)]) = some d from h2)).symm
            subst hd
            left
            exact ⟨body, pred, lab, sc, rfl, rfl, rfl, rfl, rfl⟩
      · simp only [call_hf_inference] at h
        rw [if_neg h503, if_pos h200] at h
        have hd := (Option.some.inj h).symm
        subst hd
        right
        refine ⟨rfl, "HF API error " ++ toString status ++ ": " ++ pySlice body 400, rfl, ?_⟩
        apply append_ne_empty
        rw [String.length_append]
        have h2 : (": ").length = 2 := rfl
        omega

/-- Concrete instance of the amended C10 at a timeout outcome. -/
theorem C10_witness :
    (∃ b pred lab sc, Outcome.timeout = Outcome.response 200 b (some pred)
        ∧ jget (Json.obj [("ok", Json.bool false),
            ("error", Json.str "Request to Hugging Face timed out.")]) "ok" = some (.bool true)
        ∧ jget (Json.obj [("ok", Json.bool false),
            ("error", Json.str "Request to Hugging Face timed out.")]) "label" = some lab
        ∧ jget (Json.obj [("ok", Json.bool false),
            ("error", Json.str "Request to Hugging Face timed out.")]) "score" = some (.num sc)
        ∧ jget (Json.obj [("ok", Json.bool false),
            ("error", Json.str "Request to Hugging Face timed out.")]) "raw" = some pred)
    ∨ (jget (Json.obj [("ok", Json.bool false),
          ("error", Json.str "Request to Hugging Face timed out.")]) "ok" = some (.bool false)
        ∧ ∃ e, jget (Json.obj [("ok", Json.bool false),
            ("error", Json.str "Request to Hugging Face timed out.")]) "error" = some (.str e)
          ∧ e ≠ "") :=
  C10_amended .timeout (.obj [("ok", .bool false),
    ("error", .str "Request to Hugging Face timed out.")]) rfl
